import Mathlib

/- Shallow embedding of the MLE estimation core of the repository:
`nlls.py` (the `NLLS` generic maximum-likelihood estimator) and the two
constraint/bounds policy classes of `my_library.py` (`GARCH2` and
`GeneralizedError2`).  Python floats are modelled as real numbers and numpy
vectors as lists of reals; numpy's negative indices and slices are rendered
through the list length. -/

/-- my_library.py line 95: `zero = 0e0`. -/
def zero : ℝ := 0e0

/-- my_library.py line 95: `one = 1e0`. -/
def one : ℝ := 1e0

/-- my_library.py line 95: `two = 2e0`. -/
def two : ℝ := 2e0

/-- my_library.py line 95: `ten = 1e1`. -/
def ten : ℝ := 1e1

/-- my_library.py line 95: `hundred = 1e2`. -/
def hundred : ℝ := 1e2

/-- `np.dot` of two vectors: the sum of the pairwise products. -/
def dot (xs ys : List ℝ) : ℝ := (List.zipWith (fun a b => a * b) xs ys).sum

/-- `np.mean` of a vector: sum divided by length (0 on the empty vector,
following Lean's division-by-zero convention). -/
noncomputable def npMean (xs : List ℝ) : ℝ := xs.sum / xs.length

/-- numpy `.std()` with its default `ddof=0`: the square root of the mean
squared deviation from the mean. -/
noncomputable def npStd (xs : List ℝ) : ℝ :=
  Real.sqrt (npMean (xs.map (fun x => (x - npMean xs) ^ 2)))

/-- A numpy array as seen by the `NLLS` constructor: its shape
(`endog.shape`, the list of dimension sizes) and its flattened data. -/
structure NDArray where
  shape : List ℕ
  data : List ℝ

/-- A design matrix: the number of columns (`exog.shape[1]`) and the rows. -/
structure NDMatrix where
  ncols : ℕ
  rows : List (List ℝ)

/-- Error outcomes of the estimator, following the spec's taxonomy:
`validation` covers shape and length failures (the `NotImplementedError` of
the constructor and the length `assert` of `_pick_params` in the source),
`domain` covers the zero-latent-variable `ValueError` of `_pick_params`. -/
inductive NLLSError where
  | validation (msg : String)
  | domain (msg : String)
deriving DecidableEq

/-- The state of a constructed `NLLS` estimator (nlls.py lines 24-46): the
response vector, the design matrix, the small number `epsilon`, the
latent-variable name list, the constant-column indicator `k_constant`
maintained by the statsmodels base class, and the chosen distribution
represented by its log-density function `logpdf extra loc scale x`. -/
structure NLLS where
  endog : List ℝ
  exog : NDMatrix
  epsilon : ℝ
  latent_variables : List String
  k_constant : ℕ
  logpdf : List ℝ → ℝ → ℝ → ℝ → ℝ

/-- Modelled from the spec: the statsmodels base class (external to this
repository) registers the latent variables as extra parameter names, so the
total parameter count is the K mean-process coefficient count plus the
latent-variable count ("Parameter Vector: an ordered sequence of length
K + 1 + E"). -/
def NLLS.nparams (m : NLLS) : ℕ := m.exog.ncols + m.latent_variables.length

/-- nlls.py lines 24-42, `NLLS.__init__`: sets `epsilon = 1e-7`, rejects a
response array of more than one dimension, substitutes a constant column of
ones when no design matrix is given (`np.ones(N)` is one column wide), and
sets `latent_variables = ['sigma'] + extra_params_names`.  `k_constant` is
the constant-column indicator determined by the statsmodels base
constructor, passed through here. -/
def NLLS.init (endog : NDArray) (exog : Option NDMatrix)
    (logpdf : List ℝ → ℝ → ℝ → ℝ → ℝ) (extra_params_names : List String)
    (k_constant : ℕ) : Except NLLSError NLLS :=
  if 1 < endog.shape.length then
    .error (.validation
      "Only univariate processes are supported, you supplied a multi-dimensional array for endog.")
  else
    .ok { endog := endog.data
          exog := exog.getD ⟨1, List.replicate endog.data.length [one]⟩
          epsilon := 1e-7
          latent_variables := "sigma" :: extra_params_names
          k_constant := k_constant
          logpdf := logpdf }

/-- nlls.py lines 48-71, `NLLS._pick_params`: checks the parameter count (the
`assert`), then splits the vector around the latent variables.  Python's
negative indices become offsets from the length: `params[:-n]` is
`take (len - n)`, `params[-n]` is the entry at `len - n`, `params[-n+1:]` is
`drop (len - n + 1)` for `n > 1`, and `params[-1]` is the entry at
`len - 1`. -/
def NLLS._pick_params (m : NLLS) (params : List ℝ) :
    Except NLLSError (List ℝ × ℝ × List ℝ) :=
  if params.length = m.nparams then
    if 1 < m.latent_variables.length then
      .ok (params.take (params.length - m.latent_variables.length),
           params.getD (params.length - m.latent_variables.length) 0,
           params.drop (params.length - m.latent_variables.length + 1))
    else if m.latent_variables.length = 1 then
      .ok (params.take (params.length - 1), params.getD (params.length - 1) 0, [])
    else
      .error (.domain "The number of latent variables cannot be zero.")
  else
    .error (.validation "len(params) == self.nparams")

/-- nlls.py line 84: the linear mean process `np.dot(exog, beta)`, applied row
by row. -/
def NLLS.meanOf (m : NLLS) (beta : List ℝ) : List ℝ :=
  m.exog.rows.map (fun row => dot row beta)

/-- nlls.py lines 73-86, `NLLS.predict`, with the parameters passed explicitly
(the source defaults `params` to the memorialized `self.params`). -/
def NLLS.predict (m : NLLS) (params : List ℝ) : Except NLLSError (List ℝ) :=
  match m._pick_params params with
  | .error e => .error e
  | .ok (beta, _, _) => .ok (m.meanOf beta)

/-- nlls.py line 95: the innovation series `(endog - mean) / sigma`, recorded
as diagnostic state while the likelihood is evaluated. -/
noncomputable def NLLS.innovationOf (m : NLLS) (mean : List ℝ) (sigma : ℝ) :
    List ℝ :=
  List.zipWith (fun y mu => (y - mu) / sigma) m.endog mean

/-- nlls.py lines 88-101, `NLLS.nloglikeobs`: splits the parameters, computes
the mean process (the `self.predict()` call reuses the parameters just
memorialized by `_pick_params`, so it is `meanOf beta`), builds the
distribution with `loc=zero`, `scale=sigma` and the `extra` shape arguments,
and returns the negated log-density at `endog - mean`, observation by
observation. -/
def NLLS.nloglikeobs (m : NLLS) (params : List ℝ) : Except NLLSError (List ℝ) :=
  match m._pick_params params with
  | .error e => .error e
  | .ok (beta, sigma, extra) =>
      .ok (List.zipWith (fun y mu => -(m.logpdf extra zero sigma (y - mu)))
        m.endog (m.meanOf beta))

/-- Modelled from the spec: "join(beta, sigma, extra) -> params, inverse of
each other" — no join function appears in the repository sources; the spec
specifies it as the reassembly of the fixed layout `[beta..., sigma,
extra...]`. -/
def NLLS.join (beta : List ℝ) (sigma : ℝ) (extra : List ℝ) : List ℝ :=
  beta ++ sigma :: extra

/-- A bound endpoint as numpy writes them: plus or minus infinity, or a finite
real. -/
inductive Extended where
  | ninf
  | pinf
  | fin (x : ℝ)

/-- nlls.py lines 112-117: the default start vector built by `fit` when
`start_params` is omitted — K zeros, the standard deviation of `endog`, one
1 per user latent variable; when a constant column is present the first entry
is replaced by the mean of `endog`. -/
noncomputable def NLLS.fit_default_start_params (m : NLLS) : List ℝ :=
  let s := List.replicate m.exog.ncols zero ++ [npStd m.endog]
    ++ List.replicate (m.latent_variables.length - 1) one
  if m.k_constant ≠ 0 then s.set 0 (npMean m.endog) else s

/-- nlls.py lines 119-121: the default bounds built by `fit` when `bounds` is
omitted — unconstrained pairs for the mean coefficients, `(epsilon, +inf)`
for sigma, unconstrained pairs for the user latent variables. -/
def NLLS.fit_default_bounds (m : NLLS) : List (Extended × Extended) :=
  List.replicate m.exog.ncols (Extended.ninf, Extended.pinf)
    ++ [(Extended.fin m.epsilon, Extended.pinf)]
    ++ List.replicate (m.latent_variables.length - 1) (Extended.ninf, Extended.pinf)

/-- Modelled from the spec: the residual degrees of freedom set by the external
statsmodels base constructor before nlls.py line 45 adjusts them —
observations minus the mean-process coefficient count (the rank of the
full-rank design matrix). -/
def statsmodelsDfResid (N K : ℕ) : ℤ := (N : ℤ) - K

/-- nlls.py line 45: `self.df_resid -= len(self.latent_variables)`. -/
def NLLS.df_resid (m : NLLS) : ℤ :=
  statsmodelsDfResid m.endog.length m.exog.ncols - m.latent_variables.length

/-- nlls.py line 46: `self.df_model = self.nparams - self.k_constant`. -/
def NLLS.df_model (m : NLLS) : ℤ := (m.nparams : ℤ) - m.k_constant

/-- The log-density of the scipy `norm` distribution:
`log pdf(x; loc, scale) = -((x - loc)/scale)^2 / 2 - log scale - log (sqrt (2*pi))`.
The shape-argument list is ignored (the Normal has no shape parameters). -/
noncomputable def normLogpdf (_extra : List ℝ) (loc scale x : ℝ) : ℝ :=
  -(((x - loc) / scale) ^ 2) / 2 - Real.log scale - Real.log (Real.sqrt (2 * Real.pi))

/-- my_library.py line 113, the `GARCH2` subclass data: the volatility-model
orders `p`, `o`, `q` and the `power` inherited from the base `GARCH`
class. -/
structure GARCH2 where
  p : ℕ
  o : ℕ
  q : ℕ
  power : ℝ

/-- my_library.py lines 115-120, `GARCH2.bounds`: with
`v = mean(abs(resids) ** power)`, the first pair is `(1e-8*v, ten*v)` and the
remaining `p+o+q` pairs are `(-one, two)`. -/
noncomputable def GARCH2.bounds (g : GARCH2) (resids : List ℝ) : List (ℝ × ℝ) :=
  let v := npMean (resids.map (fun r => |r| ^ g.power))
  (1e-8 * v, ten * v) :: List.replicate (g.p + g.o + g.q) (-one, two)

/-- numpy slice assignment `b[lo:hi] = v` on a vector, written as a recursion
carrying the current index. -/
def npSliceAssignFrom (v : ℝ) (lo hi i : ℕ) : List ℝ → List ℝ
  | [] => []
  | x :: xs => (if lo ≤ i ∧ i < hi then v else x) :: npSliceAssignFrom v lo hi (i + 1) xs

/-- numpy slice assignment `b[lo:hi] = v`. -/
def npSliceAssign (v : ℝ) (lo hi : ℕ) (b : List ℝ) : List ℝ :=
  npSliceAssignFrom v lo hi 0 b

/-- my_library.py lines 122-126, `GARCH2.constraints`: takes the `(a, b)`
system returned by `super().constraints()` (base `GARCH` code in the external
`arch` library, passed here as arguments), overwrites `b[1:(p+o+1)]` with
`-one`, and returns `a` unchanged. -/
def GARCH2.constraints (g : GARCH2) (a : List (List ℝ)) (b : List ℝ) :
    List (List ℝ) × List ℝ :=
  (a, npSliceAssign (-one) 1 (g.p + g.o + 1) b)

/-- my_library.py lines 105-107, `GeneralizedError2.bounds`: always
`[(0e0, 1e2)]`, whatever the arguments. -/
def GeneralizedError2.bounds (_args : List ℝ) : List (ℝ × ℝ) := [(0e0, 1e2)]

/-- my_library.py lines 109-110, `GeneralizedError2.constraints`:
`(np.array([[1], [-1]]), np.array([self.bounds()[0][0], -self.bounds()[0][1]]))`,
whatever the arguments. -/
def GeneralizedError2.constraints (_args : List ℝ) : List (List ℝ) × List ℝ :=
  ([[1], [-1]],
   [((GeneralizedError2.bounds []).getD 0 (0, 0)).1,
    -((GeneralizedError2.bounds []).getD 0 (0, 0)).2])

/-- The likelihood-correctness example instance: `endog = [1, 2, 3]`, a single
constant column of ones, the Normal distribution, no extra latent
variables. -/
noncomputable def exampleNLLS : NLLS :=
  { endog := [1, 2, 3]
    exog := ⟨1, [[1], [1], [1]]⟩
    epsilon := 1e-7
    latent_variables := ["sigma"]
    k_constant := 1
    logpdf := normLogpdf }

/-- The degrees-of-freedom example instance: 100 observations, 2 mean-process
coefficients (one of them the constant), 1 extra latent variable. -/
def exampleNLLS100 : NLLS :=
  { endog := List.replicate 100 0
    exog := ⟨2, List.replicate 100 [1, 0]⟩
    epsilon := 1e-7
    latent_variables := ["sigma", "nu"]
    k_constant := 1
    logpdf := fun _ _ _ _ => 0 }

/-- An example instance without a constant column (`k_constant = 0`). -/
def exampleNLLS0 : NLLS :=
  { endog := [1, 2]
    exog := ⟨1, [[4], [5]]⟩
    epsilon := 1e-7
    latent_variables := ["sigma"]
    k_constant := 0
    logpdf := fun _ _ _ _ => 0 }

/-- An example `GARCH2` policy instance with orders p=1, o=0, q=1 and the
default power 2. -/
def garchExample : GARCH2 := ⟨1, 0, 1, 2⟩

/-- The friendly number `zero` of my_library.py is the real number 0. -/
theorem zero_eq : zero = 0 := by norm_num [zero]

/-- The friendly number `one` of my_library.py is the real number 1. -/
theorem one_eq : one = 1 := by norm_num [one]

/-- The friendly number `two` of my_library.py is the real number 2. -/
theorem two_eq : two = 2 := by norm_num [two]

/-- The friendly number `ten` of my_library.py is the real number 10. -/
theorem ten_eq : ten = 10 := by norm_num [ten]

/-- The friendly number `hundred` of my_library.py is the real number 100. -/
theorem hundred_eq : hundred = 100 := by norm_num [hundred]

/-- Splitting a list at an index below its length and reassembling the three
pieces gives the list back. -/
theorem take_getD_drop (v : List ℝ) (K : ℕ) (h : K < v.length) :
    v.take K ++ v.getD K 0 :: v.drop (K + 1) = v := by
  induction v generalizing K with
  | nil => simp at h
  | cons x xs ih =>
    rcases K with _ | K
    · simp [List.getD]
    · simp only [List.take_succ_cons, List.getD_cons_succ, List.drop_succ_cons,
        List.cons_append, List.cons.injEq, true_and]
      exact ih K (by simpa using h)

/-- Reading an appended list at the length of the first part reads the head of
the second part. -/
theorem getD_append_length (l1 l2 : List ℝ) (d : ℝ) :
    (l1 ++ l2).getD l1.length d = l2.getD 0 d := by
  induction l1 with
  | nil => simp
  | cons x xs ih => simpa using ih

/-- Setting index 0 of an appended list with a nonempty first part sets it in
the first part. -/
theorem set_zero_append (A B : List ℝ) (v : ℝ) (h : A ≠ []) :
    (A ++ B).set 0 v = A.set 0 v ++ B := by
  cases A with
  | nil => exact absurd rfl h
  | cons x xs => rfl

/-- Characterization of `NLLS._pick_params` on a parameter vector of the
declared length: it returns the first K entries, the entry at index K, and
everything past index K. -/
theorem pick_params_eq_ok (m : NLLS) (E : ℕ) (params : List ℝ)
    (hE : m.latent_variables.length = 1 + E)
    (hlen : params.length = m.exog.ncols + 1 + E) :
    m._pick_params params =
      Except.ok (params.take m.exog.ncols, params.getD m.exog.ncols 0,
        params.drop (m.exog.ncols + 1)) := by
  have hn : params.length = m.nparams := by
    simp only [NLLS.nparams, hE, hlen]; omega
  unfold NLLS._pick_params
  rw [if_pos hn, hE, hlen]
  rcases E with _ | E
  · rw [if_neg (by omega), if_pos rfl]
    have h1 : m.exog.ncols + 1 + 0 - 1 = m.exog.ncols := by omega
    rw [h1]
    have h2 : params.drop (m.exog.ncols + 1) = [] :=
      List.drop_eq_nil_of_le (by omega)
    rw [h2]
  · rw [if_pos (by omega)]
    have h1 : m.exog.ncols + 1 + (E + 1) - (1 + (E + 1)) = m.exog.ncols := by omega
    rw [h1]

/-- C2: `_pick_params` applied to a parameter vector of length K+1+E returns
beta = the first K entries, sigma = the entry at index K, and extra = the
last E entries (pieces of lengths K, 1, E; for E = 0 sigma is the last entry
and extra is empty); applied to a vector of any other length it fails with a
ValidationError. -/
theorem claim_C2_split_layout (m : NLLS) (E : ℕ) (params : List ℝ)
    (hE : m.latent_variables.length = 1 + E) :
    (params.length = m.exog.ncols + 1 + E →
      m._pick_params params =
        Except.ok (params.take m.exog.ncols, params.getD m.exog.ncols 0,
          params.drop (m.exog.ncols + 1))
      ∧ (params.take m.exog.ncols).length = m.exog.ncols
      ∧ (params.drop (m.exog.ncols + 1)).length = E)
    ∧ (params.length ≠ m.exog.ncols + 1 + E →
      m._pick_params params =
        Except.error (.validation "len(params) == self.nparams")) := by
  constructor
  · intro hlen
    refine ⟨pick_params_eq_ok m E params hE hlen, ?_, ?_⟩
    · rw [List.length_take, hlen]
      omega
    · rw [List.length_drop, hlen]
      omega
  · intro hlen
    unfold NLLS._pick_params
    rw [if_neg]
    simp only [NLLS.nparams, hE]
    omega

/-- Witness for C2 at a concrete instance: K = 2, E = 1, a correct-length
vector splits as claimed and a short vector is rejected. -/
theorem claim_C2_split_layout_witness :
    exampleNLLS100._pick_params [5, 6, 7, 8] = Except.ok ([5, 6], 7, [8])
    ∧ exampleNLLS100._pick_params [5, 6, 7] =
        Except.error (.validation "len(params) == self.nparams") := by
  have h1 := claim_C2_split_layout exampleNLLS100 1 [5, 6, 7, 8] rfl
  have h2 := claim_C2_split_layout exampleNLLS100 1 [5, 6, 7] rfl
  exact ⟨(h1.1 rfl).1, h2.2 (by decide)⟩

/-- C3: for every valid Parameter Vector v of length K+1+E, `join` applied to
the three pieces produced by `split(v)` returns exactly v; conversely,
splitting `join beta sigma extra` recovers the pieces, so split and join are
inverses of each other. -/
theorem claim_C3_split_join_inverse (m : NLLS) (E : ℕ)
    (hE : m.latent_variables.length = 1 + E) :
    (∀ v : List ℝ, v.length = m.exog.ncols + 1 + E →
      ∃ beta sigma extra,
        m._pick_params v = Except.ok (beta, sigma, extra)
        ∧ NLLS.join beta sigma extra = v)
    ∧ (∀ (beta : List ℝ) (sigma : ℝ) (extra : List ℝ),
        beta.length = m.exog.ncols → extra.length = E →
        m._pick_params (NLLS.join beta sigma extra) =
          Except.ok (beta, sigma, extra)) := by
  constructor
  · intro v hlen
    refine ⟨_, _, _, pick_params_eq_ok m E v hE hlen, ?_⟩
    unfold NLLS.join
    exact take_getD_drop v m.exog.ncols (by omega)
  · intro beta sigma extra hb he
    have hlen : (NLLS.join beta sigma extra).length = m.exog.ncols + 1 + E := by
      simp [NLLS.join, hb, he]; omega
    rw [pick_params_eq_ok m E _ hE hlen]
    unfold NLLS.join
    have h1 : (beta ++ sigma :: extra).take m.exog.ncols = beta := by
      rw [← hb]; exact List.take_left beta (sigma :: extra)
    have h2 : (beta ++ sigma :: extra).getD m.exog.ncols 0 = sigma := by
      rw [← hb, getD_append_length]; rfl
    have h3 : (beta ++ sigma :: extra).drop (m.exog.ncols + 1) = extra := by
      rw [← hb]
      have : beta.length + 1 = (beta ++ [sigma]).length := by simp
      rw [show beta ++ sigma :: extra = (beta ++ [sigma]) ++ extra by simp, this,
        List.drop_left]
    rw [h1, h2, h3]

/-- Witness for C3 at a concrete instance: K = 2, E = 1. -/
theorem claim_C3_split_join_inverse_witness :
    (∃ beta sigma extra,
      exampleNLLS100._pick_params [5, 6, 7, 8] = Except.ok (beta, sigma, extra)
      ∧ NLLS.join beta sigma extra = [5, 6, 7, 8])
    ∧ exampleNLLS100._pick_params (NLLS.join [5, 6] 7 [8]) =
        Except.ok ([5, 6], 7, [8]) := by
  have h := claim_C3_split_join_inverse exampleNLLS100 1 rfl
  exact ⟨h.1 [5, 6, 7, 8] rfl, h.2 [5, 6] 7 [8] rfl rfl⟩

/-- C9: constructing an estimator with a response array of more than one
dimension fails immediately with a ValidationError carrying a descriptive
message; for every at-most-one-dimensional response the constructor does not
raise it. -/
theorem claim_C9_univariate_check (endog : NDArray) (exog : Option NDMatrix)
    (logpdf : List ℝ → ℝ → ℝ → ℝ → ℝ) (names : List String) (kc : ℕ) :
    (1 < endog.shape.length →
      NLLS.init endog exog logpdf names kc =
        Except.error (.validation
          "Only univariate processes are supported, you supplied a multi-dimensional array for endog."))
    ∧ (endog.shape.length ≤ 1 →
      ∃ m, NLLS.init endog exog logpdf names kc = Except.ok m) := by
  constructor
  · intro h
    unfold NLLS.init
    rw [if_pos h]
  · intro h
    unfold NLLS.init
    rw [if_neg (by omega)]
    exact ⟨_, rfl⟩

/-- Witness for C9: a 2-dimensional response is rejected at construction, a
1-dimensional one is accepted. -/
theorem claim_C9_univariate_check_witness :
    NLLS.init ⟨[2, 2], [1, 2, 3, 4]⟩ none (fun _ _ _ _ => 0) [] 1 =
      Except.error (.validation
        "Only univariate processes are supported, you supplied a multi-dimensional array for endog.")
    ∧ ∃ m, NLLS.init ⟨[3], [1, 2, 3]⟩ none (fun _ _ _ _ => 0) [] 1 =
        Except.ok m := by
  constructor
  · exact (claim_C9_univariate_check ⟨[2, 2], [1, 2, 3, 4]⟩ none
      (fun _ _ _ _ => 0) [] 1).1 (by decide)
  · exact (claim_C9_univariate_check ⟨[3], [1, 2, 3]⟩ none
      (fun _ _ _ _ => 0) [] 1).2 (by decide)

/-- C10: every successfully constructed estimator has the mandatory `sigma`
at the head of its latent-variable list, so the latent-variable count is at
least 1 and `_pick_params` never reaches its zero-latent-variables error on a
parameter vector of the declared length: it always succeeds there. -/
theorem claim_C10_sigma_always_present (endog : NDArray) (exog : Option NDMatrix)
    (logpdf : List ℝ → ℝ → ℝ → ℝ → ℝ) (names : List String) (kc : ℕ) (m : NLLS)
    (h : NLLS.init endog exog logpdf names kc = Except.ok m) :
    m.latent_variables.headD "" = "sigma"
    ∧ 1 ≤ m.latent_variables.length
    ∧ ∀ params : List ℝ, params.length = m.nparams →
        ∃ r, m._pick_params params = Except.ok r := by
  unfold NLLS.init at h
  split at h
  · exact absurd h (by simp)
  · rw [Except.ok.injEq] at h
    subst h
    refine ⟨rfl, by simp, ?_⟩
    intro params hp
    refine ⟨_, pick_params_eq_ok _ names.length params (by simp [Nat.add_comm]) ?_⟩
    simp only [NLLS.nparams, List.length_cons] at hp
    show params.length =
      (exog.getD ⟨1, List.replicate endog.data.length [one]⟩).ncols + 1 + names.length
    omega

/-- Witness for C10 at a concrete construction with one extra latent
variable. -/
theorem claim_C10_sigma_always_present_witness :
    exampleNLLS100.latent_variables.headD "" = "sigma"
    ∧ 1 ≤ exampleNLLS100.latent_variables.length
    ∧ ∃ r, exampleNLLS100._pick_params [5, 6, 7, 8] = Except.ok r := by
  have h := claim_C10_sigma_always_present ⟨[100], List.replicate 100 0⟩
    (some ⟨2, List.replicate 100 [1, 0]⟩) (fun _ _ _ _ => 0) ["nu"] 1
    exampleNLLS100 rfl
  exact ⟨h.1, h.2.1, h.2.2 [5, 6, 7, 8] rfl⟩

/-- C1: the per-observation negative log-likelihood computes `mean = exog·beta`
row by row, records `innovation = (endog - mean)/sigma`, and returns the
negated log-density of the chosen distribution with location 0, scale sigma
and shape arguments extra, evaluated at `endog - mean`; in the concrete
Normal example with `endog = [1,2,3]`, a constant column of ones, `beta=[2]`,
`sigma=1`, the mean is `[2,2,2]`, the innovations are `[-1,0,1]`, and the
result is the Normal negative log-density at those residuals with the
closed-form value `-(-(x^2)/2 - log (sqrt (2*pi)))` at each residual x. -/
theorem claim_C1_nloglikeobs (m : NLLS) (params beta : List ℝ) (sigma : ℝ)
    (extra : List ℝ)
    (h : m._pick_params params = Except.ok (beta, sigma, extra)) :
    (m.nloglikeobs params =
        Except.ok (List.zipWith (fun y mu => -(m.logpdf extra 0 sigma (y - mu)))
          m.endog (m.meanOf beta))
      ∧ m.meanOf beta = m.exog.rows.map (fun row => dot row beta)
      ∧ m.innovationOf (m.meanOf beta) sigma =
          List.zipWith (fun y mu => (y - mu) / sigma) m.endog (m.meanOf beta))
    ∧ (exampleNLLS.meanOf [2] = [2, 2, 2]
      ∧ exampleNLLS.innovationOf [2, 2, 2] 1 = [-1, 0, 1]
      ∧ exampleNLLS.nloglikeobs [2, 1] =
          Except.ok [-(normLogpdf [] 0 1 (-1)), -(normLogpdf [] 0 1 0),
            -(normLogpdf [] 0 1 1)]
      ∧ ∀ x : ℝ, normLogpdf [] 0 1 x =
          -(x ^ 2) / 2 - Real.log (Real.sqrt (2 * Real.pi))) := by
  constructor
  · refine ⟨?_, rfl, rfl⟩
    unfold NLLS.nloglikeobs
    rw [h]
    simp only [zero_eq]
  · have hp : exampleNLLS._pick_params [2, 1] = Except.ok ([2], 1, []) := rfl
    refine ⟨?_, ?_, ?_, ?_⟩
    · norm_num [NLLS.meanOf, exampleNLLS, dot]
    · norm_num [NLLS.innovationOf, exampleNLLS]
    · unfold NLLS.nloglikeobs
      rw [hp]
      norm_num [exampleNLLS, NLLS.meanOf, dot, zero_eq]
    · intro x
      norm_num [normLogpdf]

/-- Witness for C1 at the concrete Normal example. -/
theorem claim_C1_nloglikeobs_witness :
    exampleNLLS.nloglikeobs [2, 1] =
      Except.ok (List.zipWith (fun y mu => -(exampleNLLS.logpdf [] 0 1 (y - mu)))
        exampleNLLS.endog (exampleNLLS.meanOf [2]))
    ∧ exampleNLLS.meanOf [2] = [2, 2, 2] :=
  ⟨((claim_C1_nloglikeobs exampleNLLS [2, 1] [2] 1 [] rfl).1).1,
   ((claim_C1_nloglikeobs exampleNLLS [2, 1] [2] 1 [] rfl).2).1⟩

/-- C4: the default start vector built by `fit` is K zeros, then the standard
deviation of endog, then E ones; when a constant column is present the first
entry is overwritten with the mean of endog, so the first entry is the sample
mean and the dispersion entry (index K) is the sample standard deviation. -/
theorem claim_C4_default_start_params (m : NLLS) (E : ℕ)
    (hE : m.latent_variables.length = 1 + E) :
    (m.k_constant = 0 →
      m.fit_default_start_params =
        List.replicate m.exog.ncols zero ++ [npStd m.endog]
          ++ List.replicate E one)
    ∧ (m.k_constant ≠ 0 →
      m.fit_default_start_params =
        (List.replicate m.exog.ncols zero ++ [npStd m.endog]
          ++ List.replicate E one).set 0 (npMean m.endog))
    ∧ (m.k_constant ≠ 0 → 1 ≤ m.exog.ncols →
      m.fit_default_start_params.getD 0 0 = npMean m.endog
      ∧ m.fit_default_start_params.getD m.exog.ncols 0 = npStd m.endog) := by
  have hE1 : m.latent_variables.length - 1 = E := by omega
  constructor
  · intro h0
    simp [NLLS.fit_default_start_params, hE1, h0]
  constructor
  · intro h0
    simp [NLLS.fit_default_start_params, hE1, h0]
  · intro h0 hK
    simp only [NLLS.fit_default_start_params, hE1, h0, ne_eq, not_false_iff,
      if_true, if_pos]
    obtain ⟨n, hn⟩ : ∃ n, m.exog.ncols = n + 1 := ⟨m.exog.ncols - 1, by omega⟩
    rw [hn]
    constructor
    · rw [List.replicate_succ]
      simp only [List.cons_append, List.set_cons_zero, List.getD_cons_zero]
    · rw [List.replicate_succ]
      simp only [List.cons_append, List.set_cons_zero, List.getD_cons_succ]
      rw [List.append_assoc]
      have hg := getD_append_length (List.replicate n zero)
        ([npStd m.endog] ++ List.replicate E one) 0
      simpa using hg

/-- Witness for C4: the two default-start shapes at concrete instances with
and without a constant column, and the overwritten first entry. -/
theorem claim_C4_default_start_params_witness :
    exampleNLLS100.fit_default_start_params =
      (List.replicate 2 zero ++ [npStd exampleNLLS100.endog]
        ++ List.replicate 1 one).set 0 (npMean exampleNLLS100.endog)
    ∧ exampleNLLS0.fit_default_start_params =
      List.replicate 1 zero ++ [npStd exampleNLLS0.endog] ++ List.replicate 0 one
    ∧ exampleNLLS100.fit_default_start_params.getD 0 0 = npMean exampleNLLS100.endog :=
  ⟨((claim_C4_default_start_params exampleNLLS100 1 rfl).2.1 (by decide)),
   ((claim_C4_default_start_params exampleNLLS0 0 rfl).1 rfl),
   ((claim_C4_default_start_params exampleNLLS100 1 rfl).2.2 (by decide) (by decide)).1⟩

/-- C5: the default bounds built by `fit` on a constructed estimator are K
pairs (-inf, +inf) for the mean coefficients, then `(epsilon, +inf)` for
sigma with `epsilon = 1e-7 > 0`, then E pairs (-inf, +inf) for the extra
shape parameters. -/
theorem claim_C5_default_bounds (endog : NDArray) (exog : Option NDMatrix)
    (logpdf : List ℝ → ℝ → ℝ → ℝ → ℝ) (names : List String) (kc : ℕ) (m : NLLS)
    (h : NLLS.init endog exog logpdf names kc = Except.ok m) :
    m.fit_default_bounds =
      List.replicate m.exog.ncols (Extended.ninf, Extended.pinf)
        ++ [(Extended.fin (1e-7 : ℝ), Extended.pinf)]
        ++ List.replicate names.length (Extended.ninf, Extended.pinf)
    ∧ (0 : ℝ) < 1e-7 := by
  unfold NLLS.init at h
  split at h
  · exact absurd h (by simp)
  · rw [Except.ok.injEq] at h
    subst h
    refine ⟨?_, by norm_num⟩
    simp [NLLS.fit_default_bounds]

/-- Witness for C5 at a concrete construction. -/
theorem claim_C5_default_bounds_witness :
    exampleNLLS0.fit_default_bounds =
      List.replicate 1 (Extended.ninf, Extended.pinf)
        ++ [(Extended.fin (1e-7 : ℝ), Extended.pinf)]
        ++ List.replicate 0 (Extended.ninf, Extended.pinf)
    ∧ (0 : ℝ) < 1e-7 :=
  claim_C5_default_bounds ⟨[2], [1, 2]⟩ (some ⟨1, [[4], [5]]⟩)
    (fun _ _ _ _ => 0) [] 0 exampleNLLS0 rfl

/-- C6: residual degrees of freedom equal N - K - (1+E) and model degrees of
freedom equal (K+1+E) minus the constant indicator; in particular N=100,
K=2 with one constant, E=1 gives 96 and 3. -/
theorem claim_C6_degrees_of_freedom (m : NLLS) (E : ℕ)
    (hE : m.latent_variables.length = 1 + E) :
    (m.df_resid = (m.endog.length : ℤ) - m.exog.ncols - (1 + E)
      ∧ m.df_model = (m.exog.ncols : ℤ) + (1 + E) - m.k_constant)
    ∧ exampleNLLS100.df_resid = 96 ∧ exampleNLLS100.df_model = 3 := by
  refine ⟨⟨?_, ?_⟩, ?_, ?_⟩
  · simp only [NLLS.df_resid, statsmodelsDfResid, hE]
    push_cast
    ring
  · simp only [NLLS.df_model, NLLS.nparams, hE]
    push_cast
    ring
  · norm_num [NLLS.df_resid, statsmodelsDfResid, exampleNLLS100]
  · norm_num [NLLS.df_model, NLLS.nparams, exampleNLLS100]

/-- Witness for C6: the concrete degrees-of-freedom example. -/
theorem claim_C6_degrees_of_freedom_witness :
    exampleNLLS100.df_resid = 96 ∧ exampleNLLS100.df_model = 3 :=
  (claim_C6_degrees_of_freedom exampleNLLS100 1 rfl).2

/-- The numpy slice assignment keeps the vector length. -/
theorem npSliceAssignFrom_length (v : ℝ) (lo hi i : ℕ) (b : List ℝ) :
    (npSliceAssignFrom v lo hi i b).length = b.length := by
  induction b generalizing i with
  | nil => rfl
  | cons x xs ih => simp [npSliceAssignFrom, ih]

/-- Pointwise description of the numpy slice assignment. -/
theorem npSliceAssignFrom_getD (v : ℝ) (lo hi i j : ℕ) (b : List ℝ)
    (h : j < b.length) :
    (npSliceAssignFrom v lo hi i b).getD j 0 =
      if lo ≤ i + j ∧ i + j < hi then v else b.getD j 0 := by
  induction b generalizing i j with
  | nil => simp at h
  | cons x xs ih =>
    rcases j with _ | j
    · simp [npSliceAssignFrom, List.getD]
    · simp only [npSliceAssignFrom, List.getD_cons_succ]
      rw [ih (i + 1) j (by simpa using h)]
      have harith : i + 1 + j = i + (j + 1) := by omega
      rw [harith]

/-- C7: the relaxed volatility-model policy: `bounds(resids)` is
`(1e-8*v, 10*v)` with `v = mean(|resids|^power)` followed by p+o+q pairs
`(-1, 2)`; `constraints` returns the base matrix A unchanged and the base
vector b with the entries at indices 1 through p+o inclusive set to -1. -/
theorem claim_C7_garch2_policy (g : GARCH2) (resids : List ℝ)
    (a : List (List ℝ)) (b : List ℝ) :
    g.bounds resids =
      (1e-8 * npMean (resids.map (fun r => |r| ^ g.power)),
        10 * npMean (resids.map (fun r => |r| ^ g.power)))
        :: List.replicate (g.p + g.o + g.q) ((-1 : ℝ), (2 : ℝ))
    ∧ (g.constraints a b).1 = a
    ∧ (g.constraints a b).2.length = b.length
    ∧ ∀ i, i < b.length →
        (g.constraints a b).2.getD i 0 =
          if 1 ≤ i ∧ i ≤ g.p + g.o then -1 else b.getD i 0 := by
  refine ⟨?_, rfl, ?_, ?_⟩
  · simp only [GARCH2.bounds]
    norm_num [ten, one, two]
  · simp only [GARCH2.constraints, npSliceAssign]
    exact npSliceAssignFrom_length _ _ _ _ b
  · intro i hi
    simp only [GARCH2.constraints, npSliceAssign]
    rw [npSliceAssignFrom_getD _ _ _ _ _ _ hi]
    simp only [Nat.zero_add, Nat.lt_succ_iff, one_eq]

/-- Witness for C7 at orders p=1, o=0, q=1 and a concrete base system. -/
theorem claim_C7_garch2_policy_witness :
    (garchExample.constraints [[3]] [4, 5, 6]).1 = [[3]]
    ∧ (garchExample.constraints [[3]] [4, 5, 6]).2.getD 1 0 = -1 := by
  have h := claim_C7_garch2_policy garchExample [2] [[3]] [4, 5, 6]
  refine ⟨h.2.1, ?_⟩
  have h4 := h.2.2.2 1 (by decide)
  simpa [garchExample] using h4

/-- C8: the generalized-error-distribution policy: `bounds` always returns
exactly `[(0, 100)]` and `constraints` always returns the 2-by-1 matrix
`[[1], [-1]]` with the vector `[0, -100]`, whatever the arguments. -/
theorem claim_C8_ged_policy (args1 args2 : List ℝ) :
    GeneralizedError2.bounds args1 = [((0 : ℝ), (100 : ℝ))]
    ∧ GeneralizedError2.constraints args2 =
        ([[(1 : ℝ)], [(-1 : ℝ)]], [(0 : ℝ), (-100 : ℝ)]) := by
  constructor
  · norm_num [GeneralizedError2.bounds]
  · norm_num [GeneralizedError2.constraints, GeneralizedError2.bounds]

/-- Witness for C8 at concrete arguments. -/
theorem claim_C8_ged_policy_witness :
    GeneralizedError2.bounds [7] = [((0 : ℝ), (100 : ℝ))]
    ∧ GeneralizedError2.constraints [8] =
        ([[(1 : ℝ)], [(-1 : ℝ)]], [(0 : ℝ), (-100 : ℝ)]) :=
  claim_C8_ged_policy [7] [8]
